import Mathlib

/-!
Shallow embedding of the turn-based combat and ending logic of
`src/farmer.py`, a single-file pygame RPG.  Rendering and input polling
are out of scope; the combat operations of `CombatScreen`, the per-action
round of `CombatScreen.run`, and the guardian resolution of
`Game.final_guardian_event` are translated as pure functions on explicit
state.  Every random draw is passed in explicitly: the boolean outcome of
each `random.random() < p` comparison and the integer result of each
`random.randint` call.  Python integers are unbounded, so the mutable
resources hp, mp and gold are `Int` (the source never floors hp at 0);
the immutable stats are `Nat`, matching the concrete values the program
constructs.
-/

namespace Farmer

/-- Combat-log messages.  Each constructor stands for the exact string the
source passes to `CombatScreen.append`; for example `notEnoughMP` is the
cast-failure report "Not enough MP." (the spec's InsufficientResource)
and `noItems` is "No items to use.". -/
inductive Msg where
  | criticalHit
  | attackFor (dmg : Nat)
  | notEnoughMP
  | castFor (dmg : Nat)
  | brace
  | noItems
  | usedSmallPotion
  | usedManaPotion
  | usedLuckyCharm
  | usedSpiritCharm
  | noUsableItems
  | enemyHits (dmg : Nat)
  | enemyMisses
  | fledSuccess
  | fleeFailed
  | defeatedEnemy
  | droppedPotion
  | playerDefeated
  deriving DecidableEq

/-- Item record: `name` is the effect discriminator, `description` is
display-only (dataclass `Item`). -/
structure Item where
  name : String
  description : String
  deriving DecidableEq

/-- Player record (dataclass `PlayerState`); field defaults are the
dataclass defaults.  `defending` is the temporary field the combat screen
attaches to the player. -/
structure PlayerState where
  name : String := "Hero"
  pclass : String := "Warrior"
  strength : Nat := 8
  agility : Nat := 5
  magic : Nat := 2
  max_hp : Nat := 40
  hp : Int := 40
  max_mp : Nat := 10
  mp : Int := 10
  inventory : List Item := []
  gold : Int := 10
  helped_spirit : Bool := false
  has_charm : Bool := false
  defending : Bool := false
  deriving DecidableEq

/-- Enemy record, the dict built by `CombatScreen.make_enemy`. -/
structure Enemy where
  name : String
  hp : Int
  str : Nat
  agi : Nat
  lvl : Nat
  deriving DecidableEq

/-- Enemy factory `CombatScreen.make_enemy`. -/
def make_enemy (nm : String) : Enemy :=
  if nm = "Goblin" then ⟨"Goblin", 20, 4, 3, 1⟩
  else if nm = "Bandit" ∨ nm = "Bandit Leader" then ⟨"Bandit Leader", 30, 6, 4, 2⟩
  else if nm = "Ancient Guardian" then ⟨"Ancient Guardian", 70, 10, 3, 5⟩
  else ⟨"Wolf", 18, 5, 5, 1⟩

/-- Combat-screen state: the player, the session-owned enemy, the log and
the two termination flags (`CombatScreen.__init__`). -/
structure CombatState where
  player : PlayerState
  enemy : Enemy
  log : List Msg := []
  finished : Bool := false
  victory : Bool := false
  deriving DecidableEq

/-- `CombatScreen.append`: push one line, keeping at most the last nine. -/
def appendLog (log : List Msg) (m : Msg) : List Msg :=
  let l := log ++ [m]
  if l.length > 9 then l.drop 1 else l

/-- Append one message to a combat state's log. -/
def withMsg (st : CombatState) (m : Msg) : CombatState :=
  { st with log := appendLog st.log m }

/-- Utility `clamp(n, a, b) = max(a, min(b, n))` from the source. -/
def clamp (n a b : Int) : Int :=
  max a (min b n)

/-- Attack damage: base `3 + strength` plus `randint(0, 4)`; on a critical
the total is `int(dmg * 1.5)`, which for a natural number is `dmg * 3 / 2`
rounded down. -/
def attackDamage (p : PlayerState) (crit : Bool) (bonus : Nat) : Nat :=
  let base := 3 + p.strength
  let dmg := base + bonus
  if crit then dmg * 3 / 2 else dmg

/-- `CombatScreen.player_attack`; `crit` is the outcome of the crit roll,
`bonus` the `randint(0, 4)` draw.  The damage is subtracted from the
enemy's hp with no floor. -/
def player_attack (st : CombatState) (crit : Bool) (bonus : Nat) : CombatState :=
  let dmg := attackDamage st.player crit bonus
  let st1 := if crit then withMsg st .criticalHit else st
  let st2 := { st1 with enemy := { st1.enemy with hp := st1.enemy.hp - dmg } }
  withMsg st2 (.attackFor dmg)

/-- `CombatScreen.player_magic`; `bonus` is the `randint(0, 6)` draw.
With `mp < 6` the cast is refused and nothing is mutated; otherwise mp
drops by 6 and `magic + 4 + bonus` damage hits the enemy. -/
def player_magic (st : CombatState) (bonus : Nat) : CombatState :=
  if st.player.mp < 6 then withMsg st .notEnoughMP
  else
    let dmg := st.player.magic + 4 + bonus
    let st1 := { st with player := { st.player with mp := st.player.mp - 6 } }
    let st2 := { st1 with enemy := { st1.enemy with hp := st1.enemy.hp - dmg } }
    withMsg st2 (.castFor dmg)

/-- `CombatScreen.player_defend`: raise the `defending` flag. -/
def player_defend (st : CombatState) : CombatState :=
  withMsg { st with player := { st.player with defending := true } } .brace

/-- Inner loop of `CombatScreen.player_use_item`: find the first inventory
item whose name is in the effect catalog, apply its effect to the player
and remove it; `none` when no item matches.  The Small Potion branch
reproduces the source's call `clamp(max_hp, hp + 20, max_hp)` verbatim,
argument order included. -/
def useItemLoop (p : PlayerState) : List Item → Option (PlayerState × List Item × Msg)
  | [] => none
  | it :: rest =>
    if it.name = "Small Potion" then
      some ({ p with hp := clamp p.max_hp (p.hp + 20) p.max_hp }, rest, .usedSmallPotion)
    else if it.name = "Mana Potion" then
      some ({ p with mp := clamp (p.mp + 12) 0 p.max_mp }, rest, .usedManaPotion)
    else if it.name = "Lucky Charm" then
      some ({ p with hp := min (p.max_hp : Int) (p.hp + 8), gold := p.gold + 5 }, rest, .usedLuckyCharm)
    else if it.name = "Spirit Charm" then
      some ({ p with has_charm := true }, rest, .usedSpiritCharm)
    else
      match useItemLoop p rest with
      | some (p2, rest2, m) => some (p2, it :: rest2, m)
      | none => none

/-- `CombatScreen.player_use_item`: report on an empty inventory, else use
the first catalog item, else report that nothing usable was found. -/
def player_use_item (st : CombatState) : CombatState :=
  if st.player.inventory = [] then withMsg st .noItems
  else
    match useItemLoop st.player st.player.inventory with
    | some (p2, inv2, m) => withMsg { st with player := { p2 with inventory := inv2 } } m
    | none => withMsg st .noUsableItems

/-- `CombatScreen.enemy_turn`; `hit` is the outcome of the hit roll,
`bonus` the `randint(0, 3)` draw.  A dead enemy does nothing; a hit deals
`str + bonus`, halved (floor) when the player is defending, and the
player's hp is reduced with no floor. -/
def enemy_turn (st : CombatState) (hit : Bool) (bonus : Nat) : CombatState :=
  if st.enemy.hp ≤ 0 then st
  else if hit then
    let dmg0 := st.enemy.str + bonus
    let dmg := if st.player.defending then dmg0 / 2 else dmg0
    withMsg { st with player := { st.player with hp := st.player.hp - dmg } } (.enemyHits dmg)
  else withMsg st .enemyMisses

/-- `CombatScreen.attempt_flee`; `flee` is the outcome of the flee roll.
Success marks the session finished without victory; failure immediately
runs one enemy turn (with its own draws) inside the flee handler. -/
def attempt_flee (st : CombatState) (flee : Bool) (hit : Bool) (bonus : Nat) : CombatState :=
  if flee then { withMsg st .fledSuccess with finished := true, victory := false }
  else enemy_turn (withMsg st .fleeFailed) hit bonus

/-- The five player actions the combat loop dispatches on (keys A, M, D,
I, F in `CombatScreen.run`). -/
inductive Action where
  | attack
  | magic
  | defend
  | useItem
  | flee
  deriving DecidableEq

/-- One round's worth of random draws, in the order the source consumes
them: the attack crit roll and bonus, the magic bonus, the flee roll and
the draws of the enemy turn run inside a failed flee, the draws of the
post-action enemy turn, and the loot-drop roll. -/
structure Draws where
  crit : Bool := false
  atkBonus : Nat := 0
  magBonus : Nat := 0
  fleeRoll : Bool := false
  fleeHit : Bool := false
  fleeHitBonus : Nat := 0
  hit : Bool := false
  hitBonus : Nat := 0
  lootRoll : Bool := false
  deriving DecidableEq

/-- Dispatch of one player action, the key handler of `CombatScreen.run`. -/
def applyAction (st : CombatState) (act : Action) (d : Draws) : CombatState :=
  match act with
  | .attack => player_attack st d.crit d.atkBonus
  | .magic => player_magic st d.magBonus
  | .defend => player_defend st
  | .useItem => player_use_item st
  | .flee => attempt_flee st d.fleeRoll d.fleeHit d.fleeHitBonus

/-- The Small Potion loot drop of the victory branch. -/
def smallPotionItem : Item :=
  ⟨"Small Potion", "Heals 20 HP"⟩

/-- Tail of one iteration of `CombatScreen.run` after the player action:
if the enemy's hp is at most 0, grant `lvl * 5` gold and (on the loot
roll) a Small Potion and finish with victory; otherwise run the enemy
turn, clear `defending`, and finish with defeat when the player's hp has
reached 0.  The source runs this tail after every action with no check of
`finished`, so it runs even after a successful flee. -/
def stepTail (st : CombatState) (d : Draws) : CombatState :=
  if st.enemy.hp ≤ 0 then
    let st1 := withMsg st .defeatedEnemy
    let st2 := { st1 with player := { st1.player with gold := st1.player.gold + (st1.enemy.lvl : Int) * 5 } }
    let st3 :=
      if d.lootRoll then
        withMsg { st2 with player := { st2.player with inventory := st2.player.inventory ++ [smallPotionItem] } } .droppedPotion
      else st2
    { st3 with finished := true, victory := true }
  else
    let st1 := enemy_turn st d.hit d.hitBonus
    let st2 := { st1 with player := { st1.player with defending := false } }
    if st2.player.hp ≤ 0 then
      { withMsg st2 .playerDefeated with finished := true, victory := false }
    else st2

/-- One full iteration of the combat loop for a single supplied action:
the action, then the victory / enemy-turn / defeat tail. -/
def runStep (st : CombatState) (act : Action) (d : Draws) : CombatState :=
  stepTail (applyAction st act d) d

/-- The three endings of the game. -/
inductive Ending where
  | GOOD
  | NEUTRAL
  | BAD
  deriving DecidableEq

/-- Result of the guardian confrontation: the ending reached (none only
for an unrecognized choice, unreachable from the source's menu) and
whether a combat session was started. -/
structure GuardianResult where
  ending : Option Ending
  combat : Bool
  deriving DecidableEq

/-- Resolution chain of `Game.final_guardian_event` after a choice is
made; `trickRoll` is the outcome of the trick-chance roll and
`combatVictory` the outcome of the combat session a branch may start. -/
def final_guardian_resolve (chosen : Char) (p : PlayerState)
    (trickRoll : Bool) (combatVictory : Bool) : GuardianResult :=
  if chosen = 'B' then
    if p.has_charm ∨ p.magic ≥ 8 then ⟨some .GOOD, false⟩
    else if ¬combatVictory then ⟨some .BAD, true⟩
    else if p.helped_spirit then ⟨some .GOOD, true⟩
    else ⟨some .NEUTRAL, true⟩
  else if chosen = 'F' then
    if ¬combatVictory then ⟨some .BAD, true⟩
    else if p.helped_spirit then ⟨some .GOOD, true⟩
    else ⟨some .NEUTRAL, true⟩
  else if chosen = 'T' then
    if trickRoll then ⟨some .GOOD, false⟩
    else if ¬combatVictory then ⟨some .BAD, true⟩
    else ⟨some .NEUTRAL, true⟩
  else ⟨none, false⟩

/-! Concrete states used to instantiate the claims. -/

/-- Default Warrior (the `PlayerState` dataclass defaults) facing a
freshly created Goblin. -/
def goblinFight : CombatState :=
  { player := {}, enemy := make_enemy "Goblin" }

/-- Default Warrior worn down to 1 hp, facing a Goblin. -/
def woundedFight : CombatState :=
  { player := { hp := 1 }, enemy := make_enemy "Goblin" }

/-- Default Warrior at full hp holding one Small Potion, facing a Goblin. -/
def potionFight : CombatState :=
  { player := { inventory := [smallPotionItem] }, enemy := make_enemy "Goblin" }

/-- The Mage preset of `Game.create_player`. -/
def magePlayer : PlayerState :=
  { name := "Aria", pclass := "Mage", strength := 2, agility := 4, magic := 9,
    max_hp := 26, hp := 26, max_mp := 30, mp := 30,
    inventory := [⟨"Mana Potion", "Restore MP"⟩, ⟨"Mana Potion", "Restore MP"⟩],
    gold := 12 }

/-- The Mage facing a Goblin. -/
def mageFight : CombatState :=
  { player := magePlayer, enemy := make_enemy "Goblin" }

/-- The Mage's combat state after four casts (damage-bonus draw 0 each). -/
def mageAfter4 : CombatState :=
  player_magic (player_magic (player_magic (player_magic mageFight 0) 0) 0) 0

/-- Default Warrior with only 3 mp, facing a Goblin. -/
def lowMpFight : CombatState :=
  { player := { mp := 3 }, enemy := make_enemy "Goblin" }

/-- A player holding the spirit's charm. -/
def charmedPlayer : PlayerState :=
  { has_charm := true }

/-- The Rogue preset of `Game.create_player`, holding only its starting
Dagger (its Small Potion already spent): the inventory is non-empty but no
item matches the effect catalog. -/
def daggerFight : CombatState :=
  { player := { name := "Shade", pclass := "Rogue", strength := 6, agility := 8, magic := 4,
                max_hp := 32, hp := 32, max_mp := 15, mp := 15,
                inventory := [⟨"Dagger", "A small blade"⟩], gold := 12 },
    enemy := make_enemy "Goblin" }

/-! Helper lemmas about the single operations. -/

theorem withMsg_player (st : CombatState) (m : Msg) : (withMsg st m).player = st.player :=
  rfl

theorem withMsg_enemy (st : CombatState) (m : Msg) : (withMsg st m).enemy = st.enemy :=
  rfl

theorem player_attack_player (st : CombatState) (crit : Bool) (bonus : Nat) :
    (player_attack st crit bonus).player = st.player := by
  cases crit <;> rfl

theorem player_attack_enemy (st : CombatState) (crit : Bool) (bonus : Nat) :
    (player_attack st crit bonus).enemy =
      { st.enemy with hp := st.enemy.hp - (attackDamage st.player crit bonus : Int) } := by
  cases crit <;> rfl

theorem player_defend_player (st : CombatState) :
    (player_defend st).player = { st.player with defending := true } :=
  rfl

theorem player_defend_enemy (st : CombatState) : (player_defend st).enemy = st.enemy :=
  rfl

theorem player_magic_of_lt (st : CombatState) (bonus : Nat) (h : st.player.mp < 6) :
    player_magic st bonus = withMsg st .notEnoughMP := by
  unfold player_magic
  rw [if_pos h]

theorem player_magic_player_of_ge (st : CombatState) (bonus : Nat) (h : ¬st.player.mp < 6) :
    (player_magic st bonus).player = { st.player with mp := st.player.mp - 6 } := by
  unfold player_magic
  rw [if_neg h]
  rfl

theorem player_magic_enemy_of_ge (st : CombatState) (bonus : Nat) (h : ¬st.player.mp < 6) :
    (player_magic st bonus).enemy =
      { st.enemy with hp := st.enemy.hp - ((st.player.magic + 4 + bonus : Nat) : Int) } := by
  unfold player_magic
  rw [if_neg h]
  rfl

theorem enemy_turn_enemy (st : CombatState) (hit : Bool) (bonus : Nat) :
    (enemy_turn st hit bonus).enemy = st.enemy := by
  unfold enemy_turn
  split
  · rfl
  · split <;> rfl

theorem enemy_turn_player_mp (st : CombatState) (hit : Bool) (bonus : Nat) :
    (enemy_turn st hit bonus).player.mp = st.player.mp ∧
    (enemy_turn st hit bonus).player.max_mp = st.player.max_mp := by
  unfold enemy_turn
  split
  · exact ⟨rfl, rfl⟩
  · split <;> exact ⟨rfl, rfl⟩

theorem enemy_turn_player_gold (st : CombatState) (hit : Bool) (bonus : Nat) :
    (enemy_turn st hit bonus).player.gold = st.player.gold := by
  unfold enemy_turn
  split
  · rfl
  · split <;> rfl

theorem attempt_flee_enemy (st : CombatState) (flee hit : Bool) (bonus : Nat) :
    (attempt_flee st flee hit bonus).enemy = st.enemy := by
  unfold attempt_flee
  split
  · rfl
  · exact enemy_turn_enemy _ hit bonus

theorem attempt_flee_player_mp (st : CombatState) (flee hit : Bool) (bonus : Nat) :
    (attempt_flee st flee hit bonus).player.mp = st.player.mp ∧
    (attempt_flee st flee hit bonus).player.max_mp = st.player.max_mp := by
  unfold attempt_flee
  split
  · exact ⟨rfl, rfl⟩
  · exact enemy_turn_player_mp _ hit bonus

theorem attempt_flee_player_gold (st : CombatState) (flee hit : Bool) (bonus : Nat) :
    (attempt_flee st flee hit bonus).player.gold = st.player.gold := by
  unfold attempt_flee
  split
  · rfl
  · exact enemy_turn_player_gold _ hit bonus

theorem useItemLoop_gold (p : PlayerState) :
    ∀ inv p2 inv2 m, useItemLoop p inv = some (p2, inv2, m) → p.gold ≤ p2.gold := by
  intro inv
  induction inv with
  | nil => intro p2 inv2 m h; simp [useItemLoop] at h
  | cons it rest ih =>
    intro p2 inv2 m h
    simp only [useItemLoop] at h
    split at h
    · simp only [Option.some.injEq, Prod.mk.injEq] at h
      obtain ⟨h1, -, -⟩ := h
      rw [← h1]
    · split at h
      · simp only [Option.some.injEq, Prod.mk.injEq] at h
        obtain ⟨h1, -, -⟩ := h
        rw [← h1]
      · split at h
        · simp only [Option.some.injEq, Prod.mk.injEq] at h
          obtain ⟨h1, -, -⟩ := h
          rw [← h1]
          simp only
          omega
        · split at h
          · simp only [Option.some.injEq, Prod.mk.injEq] at h
            obtain ⟨h1, -, -⟩ := h
            rw [← h1]
          · cases hrec : useItemLoop p rest with
            | none => rw [hrec] at h; simp at h
            | some q =>
              obtain ⟨q1, q2, q3⟩ := q
              rw [hrec] at h
              simp only [Option.some.injEq, Prod.mk.injEq] at h
              obtain ⟨h1, -, -⟩ := h
              rw [← h1]
              exact ih q1 q2 q3 hrec

theorem useItemLoop_mp (p : PlayerState) :
    ∀ inv p2 inv2 m, useItemLoop p inv = some (p2, inv2, m) →
      0 ≤ p.mp → p.mp ≤ (p.max_mp : Int) →
      0 ≤ p2.mp ∧ p2.mp ≤ (p2.max_mp : Int) := by
  intro inv
  induction inv with
  | nil => intro p2 inv2 m h; simp [useItemLoop] at h
  | cons it rest ih =>
    intro p2 inv2 m h h0 h1
    simp only [useItemLoop] at h
    split at h
    · simp only [Option.some.injEq, Prod.mk.injEq] at h
      obtain ⟨hh, -, -⟩ := h
      rw [← hh]
      exact ⟨h0, h1⟩
    · split at h
      · simp only [Option.some.injEq, Prod.mk.injEq] at h
        obtain ⟨hh, -, -⟩ := h
        rw [← hh]
        simp only [clamp]
        constructor
        · exact le_max_left 0 _
        · have hmm : (0 : Int) ≤ (p.max_mp : Int) := Int.natCast_nonneg _
          have := min_le_left ((p.max_mp : Int)) (p.mp + 12)
          exact max_le hmm this
      · split at h
        · simp only [Option.some.injEq, Prod.mk.injEq] at h
          obtain ⟨hh, -, -⟩ := h
          rw [← hh]
          exact ⟨h0, h1⟩
        · split at h
          · simp only [Option.some.injEq, Prod.mk.injEq] at h
            obtain ⟨hh, -, -⟩ := h
            rw [← hh]
            exact ⟨h0, h1⟩
          · cases hrec : useItemLoop p rest with
            | none => rw [hrec] at h; simp at h
            | some q =>
              obtain ⟨q1, q2, q3⟩ := q
              rw [hrec] at h
              simp only [Option.some.injEq, Prod.mk.injEq] at h
              obtain ⟨hh, -, -⟩ := h
              rw [← hh]
              exact ih q1 q2 q3 hrec h0 h1

theorem player_use_item_enemy (st : CombatState) :
    (player_use_item st).enemy = st.enemy := by
  unfold player_use_item
  split
  · rfl
  · cases h : useItemLoop st.player st.player.inventory with
    | none => rfl
    | some q => obtain ⟨p2, inv2, m⟩ := q; rfl

theorem player_use_item_gold (st : CombatState) :
    st.player.gold ≤ (player_use_item st).player.gold := by
  unfold player_use_item
  split
  · exact le_refl _
  · cases h : useItemLoop st.player st.player.inventory with
    | none => exact le_refl _
    | some q =>
      obtain ⟨p2, inv2, m⟩ := q
      exact useItemLoop_gold st.player st.player.inventory p2 inv2 m h

theorem player_use_item_mp (st : CombatState)
    (h0 : 0 ≤ st.player.mp) (h1 : st.player.mp ≤ (st.player.max_mp : Int)) :
    0 ≤ (player_use_item st).player.mp ∧
    (player_use_item st).player.mp ≤ ((player_use_item st).player.max_mp : Int) := by
  unfold player_use_item
  split
  · exact ⟨h0, h1⟩
  · cases h : useItemLoop st.player st.player.inventory with
    | none => exact ⟨h0, h1⟩
    | some q =>
      obtain ⟨p2, inv2, m⟩ := q
      exact useItemLoop_mp st.player st.player.inventory p2 inv2 m h h0 h1

theorem stepTail_victory (st : CombatState) (d : Draws) (h : st.enemy.hp ≤ 0) :
    (stepTail st d).finished = true ∧ (stepTail st d).victory = true ∧
    (stepTail st d).player.gold = st.player.gold + (st.enemy.lvl : Int) * 5 ∧
    (stepTail st d).player.hp = st.player.hp := by
  unfold stepTail
  rw [if_pos h]
  cases hd : d.lootRoll <;> simp [withMsg]

theorem stepTail_player_mp (st : CombatState) (d : Draws) :
    (stepTail st d).player.mp = st.player.mp ∧
    (stepTail st d).player.max_mp = st.player.max_mp := by
  unfold stepTail
  split
  · cases hd : d.lootRoll <;> simp [withMsg]
  · obtain ⟨h1, h2⟩ := enemy_turn_player_mp st d.hit d.hitBonus
    dsimp only
    split <;> simp [withMsg, h1, h2]

theorem stepTail_gold (st : CombatState) (d : Draws) :
    st.player.gold ≤ (stepTail st d).player.gold := by
  unfold stepTail
  split
  · cases hd : d.lootRoll <;> simp [withMsg]
  · have h1 := enemy_turn_player_gold st d.hit d.hitBonus
    dsimp only
    split <;> simp [withMsg, h1]

theorem applyAction_mp (st : CombatState) (act : Action) (d : Draws)
    (h0 : 0 ≤ st.player.mp) (h1 : st.player.mp ≤ (st.player.max_mp : Int)) :
    0 ≤ (applyAction st act d).player.mp ∧
    (applyAction st act d).player.mp ≤ ((applyAction st act d).player.max_mp : Int) := by
  cases act with
  | attack =>
    rw [show applyAction st .attack d = player_attack st d.crit d.atkBonus from rfl]
    rw [player_attack_player]
    exact ⟨h0, h1⟩
  | magic =>
    rw [show applyAction st .magic d = player_magic st d.magBonus from rfl]
    by_cases hmp : st.player.mp < 6
    · rw [player_magic_of_lt st d.magBonus hmp]
      exact ⟨h0, h1⟩
    · rw [player_magic_player_of_ge st d.magBonus hmp]
      constructor
      · simp only
        omega
      · simp only
        omega
  | defend =>
    rw [show applyAction st .defend d = player_defend st from rfl, player_defend_player]
    exact ⟨h0, h1⟩
  | useItem =>
    exact player_use_item_mp st h0 h1
  | flee =>
    obtain ⟨e1, e2⟩ := attempt_flee_player_mp st d.fleeRoll d.fleeHit d.fleeHitBonus
    rw [show applyAction st .flee d = attempt_flee st d.fleeRoll d.fleeHit d.fleeHitBonus from rfl]
    rw [e1, e2]
    exact ⟨h0, h1⟩

theorem applyAction_gold (st : CombatState) (act : Action) (d : Draws) :
    st.player.gold ≤ (applyAction st act d).player.gold := by
  cases act with
  | attack =>
    rw [show applyAction st .attack d = player_attack st d.crit d.atkBonus from rfl]
    rw [player_attack_player]
  | magic =>
    rw [show applyAction st .magic d = player_magic st d.magBonus from rfl]
    by_cases hmp : st.player.mp < 6
    · rw [player_magic_of_lt st d.magBonus hmp]
      exact le_refl _
    · rw [player_magic_player_of_ge st d.magBonus hmp]
  | defend =>
    rw [show applyAction st .defend d = player_defend st from rfl, player_defend_player]
  | useItem =>
    exact player_use_item_gold st
  | flee =>
    rw [show applyAction st .flee d = attempt_flee st d.fleeRoll d.fleeHit d.fleeHitBonus from rfl]
    rw [attempt_flee_player_gold]

theorem enemy_turn_hit_hp (st : CombatState) (bonus : Nat)
    (hhp : ¬st.enemy.hp ≤ 0) (hdef : st.player.defending = false) :
    (enemy_turn st true bonus).player =
      { st.player with hp := st.player.hp - ((st.enemy.str + bonus : Nat) : Int) } := by
  unfold enemy_turn
  rw [if_neg hhp, if_pos rfl]
  dsimp only
  rw [hdef]
  rfl

theorem stepTail_alive_hit_hp (st : CombatState) (d : Draws)
    (hhp : 0 < st.enemy.hp) (hhit : d.hit = true) (hdef : st.player.defending = false) :
    (stepTail st d).player.hp = st.player.hp - ((st.enemy.str + d.hitBonus : Nat) : Int) := by
  unfold stepTail
  rw [if_neg (by omega : ¬st.enemy.hp ≤ 0)]
  dsimp only
  rw [hhit, enemy_turn_hit_hp st d.hitBonus (by omega) hdef]
  split <;> simp [withMsg]

/-! Theorems settling the claims. -/

/-- C1 (counterexample): from an in-bounds reachable state — the default
Warrior at 1 hp, 10 mp, facing a Goblin — one combat round (attack, then
the enemy hits back for 4) leaves the player's hp at -3, below 0: the
claimed hp invariant fails, since `enemy_turn` subtracts damage from hp
with no floor. -/
theorem C1_cex_hp_below_zero :
    (0 ≤ woundedFight.player.hp ∧
      woundedFight.player.hp ≤ (woundedFight.player.max_hp : Int) ∧
      0 ≤ woundedFight.player.mp ∧
      woundedFight.player.mp ≤ (woundedFight.player.max_mp : Int)) ∧
    (runStep woundedFight .attack { hit := true }).player.hp = -3 ∧
    (runStep woundedFight .attack { hit := true }).player.hp < 0 := by
  decide

/-- C1 (amended): mp does stay within [0, max_mp] after every combat
operation (any player action followed by the run-loop tail with its enemy
turn); hp is not so bounded — the enemy turn can push it below 0 and the
Small Potion slip can push it above max_hp. -/
theorem C1_mp_invariant (st : CombatState) (act : Action) (d : Draws)
    (h0 : 0 ≤ st.player.mp) (h1 : st.player.mp ≤ (st.player.max_mp : Int)) :
    0 ≤ (runStep st act d).player.mp ∧
    (runStep st act d).player.mp ≤ ((runStep st act d).player.max_mp : Int) := by
  obtain ⟨g0, g1⟩ := applyAction_mp st act d h0 h1
  obtain ⟨s1, s2⟩ := stepTail_player_mp (applyAction st act d) d
  unfold runStep
  rw [s1, s2]
  exact ⟨g0, g1⟩

/-- C1 witness: the amended mp invariant applied to the default Warrior
casting magic against a Goblin. -/
theorem C1_mp_invariant_witness :
    (0 ≤ goblinFight.player.mp ∧
      goblinFight.player.mp ≤ (goblinFight.player.max_mp : Int)) ∧
    (0 ≤ (runStep goblinFight .magic { hit := true }).player.mp ∧
      (runStep goblinFight .magic { hit := true }).player.mp ≤
        ((runStep goblinFight .magic { hit := true }).player.max_mp : Int)) :=
  ⟨⟨by decide, by decide⟩,
    C1_mp_invariant goblinFight .magic { hit := true } (by decide) (by decide)⟩

/-- C2 (code bug): the Small Potion branch of `player_use_item` calls
`clamp(max_hp, hp + 20, max_hp)` with its arguments in the wrong order
(the Mana Potion branch right beneath calls clamp correctly), so it sets
hp to `max(hp + 20, max_hp)`: using the potion at full hp (40/40) leaves
hp at 60, above max_hp, while still consuming the item. -/
theorem C2_small_potion_overheal :
    potionFight.player.hp = (potionFight.player.max_hp : Int) ∧
    (player_use_item potionFight).player.hp = 60 ∧
    (potionFight.player.max_hp : Int) < (player_use_item potionFight).player.hp ∧
    (player_use_item potionFight).player.inventory = [] := by
  decide

/-- C3 (code bug): `CombatScreen.run` runs its post-action tail (victory
check, then `enemy_turn`) after every player action without checking
`finished`, so after a successful flee the session is finished without
victory and yet the enemy still lands a hit (hp 40 drops to 36), and a
failed flee is followed by two enemy turns — one inside `attempt_flee`
and one in the loop tail (hp drops to 32). -/
theorem C3_enemy_acts_after_flee :
    (runStep goblinFight .flee { fleeRoll := true, hit := true }).finished = true ∧
    (runStep goblinFight .flee { fleeRoll := true, hit := true }).victory = false ∧
    (runStep goblinFight .flee { fleeRoll := true, hit := true }).player.hp = 36 ∧
    goblinFight.player.hp = 40 ∧
    (runStep goblinFight .flee { fleeHit := true, hit := true }).player.hp = 32 := by
  decide

/-- C4 (counterexample): after four casts the Mage's mp is 6, and the
fifth cast at mp = 6 does not fail: the guard is `mp < 6`, so the cast
succeeds, reports a 13-damage spell (not the InsufficientResource
message), and leaves mp = 0 rather than 6. -/
theorem C4_cex_fifth_cast_succeeds :
    mageAfter4.player.mp = 6 ∧
    (player_magic mageAfter4 0).player.mp = 0 ∧
    (player_magic mageAfter4 0).log.getLast? = some (Msg.castFor 13) := by
  decide

/-- C4 (amended): from mp = 30 successive casts give 24, 18, 12, then 6;
the fifth cast at mp = 6 succeeds (6 is not below the cost 6) and leaves
mp = 0; a sixth cast attempted at mp = 0 fails with the
InsufficientResource report and leaves mp = 0. -/
theorem C4_cast_sequence :
    (player_magic mageFight 0).player.mp = 24 ∧
    (player_magic (player_magic mageFight 0) 0).player.mp = 18 ∧
    (player_magic (player_magic (player_magic mageFight 0) 0) 0).player.mp = 12 ∧
    mageAfter4.player.mp = 6 ∧
    (player_magic mageAfter4 0).player.mp = 0 ∧
    (player_magic (player_magic mageAfter4 0) 0).player.mp = 0 ∧
    (player_magic (player_magic mageAfter4 0) 0).log.getLast? = some Msg.notEnoughMP := by
  decide

/-- C5: casting Magic with mp < 6 mutates nothing — the whole player
record (mp and inventory included) and the whole enemy record (hp
included) are unchanged — and the InsufficientResource report ("Not
enough MP.") is appended to the log. -/
theorem C5_insufficient_mp (st : CombatState) (bonus : Nat)
    (h : st.player.mp < 6) :
    (player_magic st bonus).player = st.player ∧
    (player_magic st bonus).enemy = st.enemy ∧
    (player_magic st bonus).log = appendLog st.log Msg.notEnoughMP := by
  rw [player_magic_of_lt st bonus h]
  exact ⟨rfl, rfl, rfl⟩

/-- C5 witness: the theorem applied to a Warrior with 3 mp. -/
theorem C5_insufficient_mp_witness :
    lowMpFight.player.mp < 6 ∧
    ((player_magic lowMpFight 0).player = lowMpFight.player ∧
      (player_magic lowMpFight 0).enemy = lowMpFight.enemy ∧
      (player_magic lowMpFight 0).log = appendLog lowMpFight.log Msg.notEnoughMP) :=
  ⟨by decide, C5_insufficient_mp lowMpFight 0 (by decide)⟩

/-- C6: whenever a player action drops the enemy's hp from positive to at
most 0, the round finishes in victory with no intervening enemy turn (the
player's hp is exactly as before the action), and the player's gold grows
by exactly `enemy.lvl * 5`. -/
theorem C6_victory_no_enemy_turn (st : CombatState) (act : Action) (d : Draws)
    (h0 : 0 < st.enemy.hp) (h1 : (applyAction st act d).enemy.hp ≤ 0) :
    (runStep st act d).finished = true ∧
    (runStep st act d).victory = true ∧
    (runStep st act d).player.gold = st.player.gold + (st.enemy.lvl : Int) * 5 ∧
    (runStep st act d).player.hp = st.player.hp := by
  unfold runStep
  obtain ⟨v1, v2, v3, v4⟩ := stepTail_victory (applyAction st act d) d h1
  have key : (applyAction st act d).player.gold = st.player.gold ∧
      (applyAction st act d).player.hp = st.player.hp ∧
      (applyAction st act d).enemy.lvl = st.enemy.lvl := by
    cases act with
    | attack =>
      rw [show applyAction st .attack d = player_attack st d.crit d.atkBonus from rfl]
      rw [player_attack_player, player_attack_enemy]
      exact ⟨rfl, rfl, rfl⟩
    | magic =>
      rw [show applyAction st .magic d = player_magic st d.magBonus from rfl] at h1 ⊢
      by_cases hmp : st.player.mp < 6
      · rw [player_magic_of_lt st d.magBonus hmp, withMsg_enemy] at h1
        omega
      · rw [player_magic_player_of_ge st d.magBonus hmp,
          player_magic_enemy_of_ge st d.magBonus hmp]
        exact ⟨rfl, rfl, rfl⟩
    | defend =>
      rw [show applyAction st .defend d = player_defend st from rfl,
        player_defend_enemy] at h1
      omega
    | useItem =>
      rw [show applyAction st .useItem d = player_use_item st from rfl,
        player_use_item_enemy] at h1
      omega
    | flee =>
      rw [show applyAction st .flee d = attempt_flee st d.fleeRoll d.fleeHit d.fleeHitBonus from rfl,
        attempt_flee_enemy] at h1
      omega
  refine ⟨v1, v2, ?_, ?_⟩
  · rw [v3, key.1, key.2.2]
  · rw [v4, key.2.1]

/-- C6 witness: a critical attack with bonus 4 (damage 22) kills the
fresh Goblin (20 hp): the round ends in victory, gold goes from 10 to
10 + 1·5, and the player's hp stays 40 — no enemy turn intervened. -/
theorem C6_victory_witness :
    (0 < goblinFight.enemy.hp ∧
      (applyAction goblinFight .attack { crit := true, atkBonus := 4 }).enemy.hp ≤ 0) ∧
    ((runStep goblinFight .attack { crit := true, atkBonus := 4 }).finished = true ∧
      (runStep goblinFight .attack { crit := true, atkBonus := 4 }).victory = true ∧
      (runStep goblinFight .attack { crit := true, atkBonus := 4 }).player.gold =
        goblinFight.player.gold + (goblinFight.enemy.lvl : Int) * 5 ∧
      (runStep goblinFight .attack { crit := true, atkBonus := 4 }).player.hp =
        goblinFight.player.hp) :=
  ⟨⟨by decide, by decide⟩,
    C6_victory_no_enemy_turn goblinFight .attack { crit := true, atkBonus := 4 }
      (by decide) (by decide)⟩

/-- C7: choosing Befriend while holding the charm (or with magic at least
8) resolves directly to the GOOD ending and starts no combat session,
whatever the trick roll or a combat outcome would have been. -/
theorem C7_befriend_good (p : PlayerState) (trickRoll combatVictory : Bool)
    (h : p.has_charm = true ∨ 8 ≤ p.magic) :
    final_guardian_resolve 'B' p trickRoll combatVictory = ⟨some Ending.GOOD, false⟩ := by
  unfold final_guardian_resolve
  rw [if_pos rfl, if_pos h]

/-- C7 witness: the theorem applied to a charm-holding player. -/
theorem C7_befriend_good_witness :
    (charmedPlayer.has_charm = true ∨ 8 ≤ charmedPlayer.magic) ∧
    final_guardian_resolve 'B' charmedPlayer false false = ⟨some Ending.GOOD, false⟩ :=
  ⟨Or.inl rfl, C7_befriend_good charmedPlayer false false (Or.inl rfl)⟩

/-- C8 (counterexample): a critical opening attack of the default Warrior
(bonus 4, damage 22) drops the fresh Goblin from 20 hp to -2: the enemy's
hp is not floored at 0. -/
theorem C8_cex_enemy_hp_negative :
    (player_attack goblinFight true 4).enemy.hp = -2 ∧
    (player_attack goblinFight true 4).enemy.hp < 0 := by
  decide

/-- C8 (amended): a player attack subtracts the damage dealt from the
enemy's hp with no floor: the new hp is exactly the old hp minus the
damage and may be negative (the session treats any hp ≤ 0 as defeated). -/
theorem C8_attack_subtracts_damage (st : CombatState) (crit : Bool) (bonus : Nat) :
    (player_attack st crit bonus).enemy.hp =
      st.enemy.hp - (attackDamage st.player crit bonus : Int) := by
  rw [player_attack_enemy]

/-- C9 (counterexample): pressing Use Item with an empty inventory only
logs "No items to use.", yet the run-loop tail still gives the enemy its
turn: the Goblin hits for 4 and the player's hp falls from 40 to 36 — the
turn is consumed after all. -/
theorem C9_cex_turn_consumed :
    goblinFight.player.inventory = [] ∧
    (runStep goblinFight .useItem { hit := true }).player.hp = 36 ∧
    (runStep goblinFight .useItem { hit := true }).player.hp < goblinFight.player.hp := by
  decide

/-- C9 (amended): whenever the use-item action finds nothing usable —
the inventory is empty, or non-empty but no item matches the effect
catalog (`useItemLoop` returns `none`, which subsumes the empty case) —
the action itself changes nothing but the log (the "No items to use."
report when empty, "No usable items found right now." otherwise), yet the
turn is still consumed: the enemy acts before the next player action, and
on a hit against a non-defending player the hp drops by `str + bonus`. -/
theorem C9_no_item_message_enemy_acts (st : CombatState) (d : Draws)
    (hinv : useItemLoop st.player st.player.inventory = none)
    (hhp : 0 < st.enemy.hp)
    (hhit : d.hit = true) (hdef : st.player.defending = false) :
    (player_use_item st).player = st.player ∧
    (player_use_item st).log =
      appendLog st.log
        (if st.player.inventory = [] then Msg.noItems else Msg.noUsableItems) ∧
    (runStep st .useItem d).player.hp =
      st.player.hp - ((st.enemy.str + d.hitBonus : Nat) : Int) := by
  have huse : player_use_item st =
      withMsg st (if st.player.inventory = [] then Msg.noItems else Msg.noUsableItems) := by
    unfold player_use_item
    by_cases hemp : st.player.inventory = []
    · rw [if_pos hemp, if_pos hemp]
    · rw [if_neg hemp, if_neg hemp, hinv]
  refine ⟨by rw [huse]; rfl, by rw [huse]; rfl, ?_⟩
  unfold runStep
  rw [show applyAction st .useItem d = player_use_item st from rfl, huse]
  rw [stepTail_alive_hit_hp
    (withMsg st (if st.player.inventory = [] then Msg.noItems else Msg.noUsableItems)) d
    (by rw [withMsg_enemy]; exact hhp) hhit (by rw [withMsg_player]; exact hdef)]
  rw [withMsg_player, withMsg_enemy]

/-- C9 witness: the amended theorem applied to the non-empty-inventory
case — the Rogue holding only its Dagger, which matches no catalog
effect, facing a Goblin that hits. -/
theorem C9_no_item_witness :
    (useItemLoop daggerFight.player daggerFight.player.inventory = none ∧
      0 < daggerFight.enemy.hp ∧
      ({ hit := true } : Draws).hit = true ∧
      daggerFight.player.defending = false) ∧
    ((player_use_item daggerFight).player = daggerFight.player ∧
      (player_use_item daggerFight).log =
        appendLog daggerFight.log
          (if daggerFight.player.inventory = [] then Msg.noItems else Msg.noUsableItems) ∧
      (runStep daggerFight .useItem { hit := true }).player.hp =
        daggerFight.player.hp -
          ((daggerFight.enemy.str + ({ hit := true } : Draws).hitBonus : Nat) : Int)) :=
  ⟨⟨by decide, by decide, by decide, by decide⟩,
    C9_no_item_message_enemy_acts daggerFight { hit := true }
      (by decide) (by decide) (by decide) (by decide)⟩

/-- C10: no combat-round operation lowers the player's gold — across any
player action (attack, defend, magic, use-item, flee) followed by the
run-loop tail (enemy turn or victory reward and loot), gold is
monotonically non-decreasing. -/
theorem C10_gold_monotone (st : CombatState) (act : Action) (d : Draws) :
    st.player.gold ≤ (runStep st act d).player.gold :=
  le_trans (applyAction_gold st act d) (stepTail_gold (applyAction st act d) d)

end Farmer
